import Mathlib

/-!
Verification of `tube-to-tube`, a small Next.js application with two server
endpoints and a presentation page:

* `src/app/api/download-video/route.ts` — `GET` validates a `videoId` query
  parameter, resolves video info via `ytdl.getInfo`, builds an ffmpeg
  transcoding command with a fixed trim/format, wires three streams together
  and either streams the transcoded output with download headers or maps an
  external error message to an HTTP status code.
* the `collect-videos` route — `GET` checks the `YOUTUBE_API_KEY`
  credential, performs a single YouTube search call with fixed parameters
  and returns its items.
* `src/app/page.tsx` — server component fetching `/api/collect-videos`
  and rendering a video grid, a "No videos found." message or an error line.

The embedding below models each handler as a pure function over an explicit
environment (the external library calls appear as function-valued fields),
with JavaScript string/number falsiness made explicit.
-/

/-! ## Generic string helpers (JS semantics made explicit) -/

/-- `beginsWithList needle hay` is true when `needle` is an initial segment
of `hay` (character lists). -/
def beginsWithList : List Char → List Char → Bool
  | [], _ => true
  | _ :: _, [] => false
  | n :: ns, h :: hs => n == h && beginsWithList ns hs

/-- `subListAnywhere needle hay` is true when `needle` occurs contiguously
somewhere inside `hay`.  This is JavaScript `hay.includes(needle)` on the
underlying character sequences. -/
def subListAnywhere (needle : List Char) : List Char → Bool
  | [] => beginsWithList needle []
  | h :: hs => beginsWithList needle (h :: hs) || subListAnywhere needle hs

/-- `strContains hay needle` : JavaScript `hay.includes(needle)`. -/
def strContains (hay needle : String) : Bool :=
  subListAnywhere needle.toList hay.toList

/-- ASCII lower-casing of a string, the effect of JavaScript
`toLowerCase()` on the messages that occur in this code base. -/
def lowerStr (s : String) : String :=
  String.mk (s.toList.map Char.toLower)

/-- JavaScript truthiness of a nullable string: `null`/absent and the empty
string are falsy. -/
def optStrTruthy : Option String → Bool
  | none => false
  | some s => !(s == "")

/-- JavaScript `a || d` for a nullable number `a` with default `d`:
`null`/absent and `0` are falsy. -/
def optNatOrDefault : Option Nat → Nat → Nat
  | none, d => d
  | some n, d => if n == 0 then d else n

/-- JavaScript `a || d` for a nullable string `a` with default `d`. -/
def optStrOrDefault : Option String → String → String
  | none, d => d
  | some s, d => if s == "" then d else s

/-! ## Shared data model: YouTube search items

`YouTubeVideoItem` as declared (identically) in the collect-videos route and
in `src/app/page.tsx`: every field is optional. -/

structure MediumThumb where
  url : Option String
  width : Option Nat
  height : Option Nat
deriving DecidableEq

structure Thumbnails where
  medium : Option MediumThumb
deriving DecidableEq

structure Snippet where
  title : Option String
  thumbnails : Option Thumbnails
deriving DecidableEq

structure VideoIdObj where
  videoId : Option String
deriving DecidableEq

structure YouTubeVideoItem where
  id : Option VideoIdObj
  snippet : Option Snippet
deriving DecidableEq

/-! ## Download route (`src/app/api/download-video/route.ts`) -/

/-- `info.videoDetails` as used by the route: only the title matters. -/
structure VideoDetails where
  title : Option String
deriving DecidableEq

structure VideoInfo where
  videoDetails : VideoDetails
deriving DecidableEq

/-- External effects of the download route: `ytdl.validateID` and
`ytdl.getInfo` (the latter may throw; `Except.error` carries the thrown
error message string). -/
structure DownloadEnv where
  validateID : String → Bool
  getInfo : String → Except String VideoInfo

/-- `https://www.youtube.com/watch?v=${videoId}`. -/
def watchUrl (videoId : String) : String :=
  "https://www.youtube.com/watch?v=" ++ videoId

/-- The fluent-ffmpeg command configuration built by the route. -/
structure FfmpegConfig where
  startTime : String
  durationSeconds : Nat
  format : String
  outputOptions : List String
deriving DecidableEq

/-- `ffmpeg(videoStreamNode).setStartTime('00:00:00').setDuration(30)
.toFormat('mp4').outputOptions([...])` — a closed constant, independent of
the request. -/
def ffmpegCommandConfig : FfmpegConfig :=
  { startTime := "00:00:00"
    durationSeconds := 30
    format := "mp4"
    outputOptions :=
      ["-movflags frag_keyframe+empty_moov"
      , "-preset ultrafast"
      , "-tune zerolatency"] }

/-- A character kept verbatim by the first sanitizing replace: JavaScript
class `[\w\s\-\.]` (word character, whitespace, hyphen or dot). -/
def keptBySanitize (c : Char) : Bool :=
  c.isAlphanum || c == '_' || c.isWhitespace || c == '-' || c == '.'

/-- `.replace(/[^\w\s\-\.]/g, '_')` on a single character. -/
def replaceBadChar (c : Char) : Char :=
  if keptBySanitize c then c else '_'

/-- `.replace(/\s+/g, '_')` : every maximal run of whitespace becomes a
single underscore.  `prevSpace` records whether the previous character was
part of a whitespace run already replaced. -/
def collapseWsAux : Bool → List Char → List Char
  | _, [] => []
  | prevSpace, c :: cs =>
    if c.isWhitespace then
      if prevSpace then collapseWsAux true cs
      else '_' :: collapseWsAux true cs
    else c :: collapseWsAux false cs

/-- `videoTitle` : `info.videoDetails.title || 'youtube_video'` (JS `||`,
so an absent or empty title falls back to the default). -/
def videoTitleOf (title : Option String) : String :=
  optStrOrDefault title "youtube_video"

/-- `sanitizedFilenameBase` : the title with characters outside
`[\w\s\-\.]` replaced by `_`, whitespace runs replaced by `_`, then
`.substring(0, 100)`. -/
def sanitizedFilenameBase (videoTitle : String) : String :=
  String.mk ((collapseWsAux false (videoTitle.toList.map replaceBadChar)).take 100)

/-- `filename` : `${sanitizedFilenameBase}_trimmed_30s.mp4`. -/
def downloadFilename (title : Option String) : String :=
  sanitizedFilenameBase (videoTitleOf title) ++ "_trimmed_30s.mp4"

/-- The two headers set on a successful streaming response. -/
def downloadHeaders (title : Option String) : List (String × String) :=
  [("Content-Type", "video/mp4")
  , ("Content-Disposition", "attachment; filename=\"" ++ downloadFilename title ++ "\"")]

/-- Error classification of the catch block: the thrown message is
lower-cased and matched against substrings; the pair is
`(statusCode, errorMessage)` exactly as the route builds them. -/
def classifyDownloadError (videoId errMsg : String) : Nat × String :=
  let m := lowerStr errMsg
  if strContains m "unavailable" || strContains m "private" ||
      strContains m "video not found" then
    (404, "Video is unavailable, private, or not found.")
  else if strContains m "extract function" || strContains m "cipher" ||
      strContains m "signature" then
    (503, "Error processing YouTube video: " ++ errMsg ++
      ". This often indicates an issue with YouTube\x27s current video delivery mechanism or that the \x27ytdl-core\x27 library needs an update to adapt to recent YouTube changes. Please check the ytdl-core GitHub repository for known issues.")
  else if strContains m "no formats found matching quality" ||
      strContains m "no such format found" then
    (422, "Could not find a suitable MP4 format with both video and audio for videoId " ++
      videoId ++ ". The video might only offer separate streams. Error: " ++ errMsg)
  else if strContains m "sign in to confirm" ||
      strContains m "confirm youâ€™re not a bot" then
    (403, "YouTube requires verification to access this video. This may be due to bot detection. Please try again later or from a different network. Original error: " ++ errMsg)
  else
    (500, errMsg)

/-- Responses of the download route: a JSON error body
`{ error, videoId }` with a status, or a streaming response with headers
and the ffmpeg configuration driving it. -/
inductive DownloadResponse where
  | json (status : Nat) (error : String) (videoId : Option String)
  | stream (headers : List (String × String)) (cmd : FfmpegConfig)
deriving DecidableEq

/-- The `GET` handler of `src/app/api/download-video/route.ts`.
`videoIdParam` is `searchParams.get('videoId')` (`none` = absent; a present
empty value is also rejected by JS `!videoId`). -/
def downloadGET (env : DownloadEnv) (videoIdParam : Option String) : DownloadResponse :=
  match videoIdParam with
  | none => .json 400 "videoId query parameter is required" none
  | some vid =>
    if vid == "" then .json 400 "videoId query parameter is required" none
    else if !env.validateID vid then .json 400 "Invalid YouTube video ID" (some vid)
    else
      match env.getInfo (watchUrl vid) with
      | .ok info => .stream (downloadHeaders info.videoDetails.title) ffmpegCommandConfig
      | .error e =>
        let c := classifyDownloadError vid e
        .json c.fst c.snd (some vid)

/-! ## Stream wiring and cancellation

The `ReadableStream` passed to `NextResponse` forwards PassThrough events
to the controller, and its `cancel` callback destroys the ytdl source
stream, destroys the PassThrough, and kills the ffmpeg process with
SIGKILL.  We model the wiring as a step function on an explicit state. -/

inductive StreamEvent where
  | dataChunk (size : Nat)
  | endOfStream
  | errEvent (msg : String)
  | cancelEvent
deriving DecidableEq

structure WireState where
  enqueued : List Nat
  controllerClosed : Bool
  controllerErrored : Option String
  videoStreamDestroyed : Bool
  passThroughDestroyed : Bool
  ffmpegKillSignal : Option String
deriving DecidableEq

/-- Initial state after `start(controller)` registers the listeners. -/
def initialWireState : WireState :=
  { enqueued := []
    controllerClosed := false
    controllerErrored := none
    videoStreamDestroyed := false
    passThroughDestroyed := false
    ffmpegKillSignal := none }

/-- One event of the wired streams: `data` enqueues the chunk, `end`
closes the controller, `error` errors it, and `cancel` runs the teardown
of the `cancel()` callback. -/
def wireStep (s : WireState) : StreamEvent → WireState
  | .dataChunk n => { s with enqueued := s.enqueued ++ [n] }
  | .endOfStream => { s with controllerClosed := true }
  | .errEvent m => { s with controllerErrored := some m }
  | .cancelEvent =>
    { s with
      videoStreamDestroyed := true
      passThroughDestroyed := true
      ffmpegKillSignal := some "SIGKILL" }

/-! ## Collect-videos route -/

/-- Parameters of the `youtube.search.list` call. -/
structure SearchParams where
  part : List String
  q : String
  type : List String
  maxResults : Nat
deriving DecidableEq

/-- `response.data` of the search call: `items` may be absent. -/
structure SearchResponse where
  items : Option (List YouTubeVideoItem)
deriving DecidableEq

/-- The fixed parameters the route passes to `youtube.search.list`. -/
def collectSearchParams : SearchParams :=
  { part := ["snippet"]
    q := "talk about money"
    type := ["video"]
    maxResults := 10 }

/-- Responses of the collect-videos route: the missing-key body
`{ message }`, the success body (the raw item list), or the catch-block
body `{ message, error }`. -/
inductive CollectResponse where
  | jsonMessage (status : Nat) (message : String)
  | jsonVideos (status : Nat) (videos : List YouTubeVideoItem)
  | jsonFetchError (status : Nat) (message : String) (error : String)
deriving DecidableEq

/-- The `GET` handler of the collect-videos route.  `apiKey` is
`process.env.YOUTUBE_API_KEY` (`none` = unset; JS `!apiKey` also rejects an
empty value).  `searchList` is the external `youtube.search.list` call
(`Except.error` carries the extracted error message of the catch block).
The first component of the result records, in order, every `search.list`
invocation the handler performed. -/
def collectVideosGET (apiKey : Option String)
    (searchList : SearchParams → Except String SearchResponse) :
    List SearchParams × CollectResponse :=
  if !optStrTruthy apiKey then
    ([], .jsonMessage 500 "YouTube API Key is not configured on the server.")
  else
    match searchList collectSearchParams with
    | .ok resp => ([collectSearchParams], .jsonVideos 200 (resp.items.getD []))
    | .error emsg =>
      ([collectSearchParams],
        .jsonFetchError 500 "Error fetching videos from YouTube API." emsg)

/-! ## Presentation page (`src/app/page.tsx`) -/

/-- A rendered video card of the grid (the `<a>` element with its
`Image`): the data the JSX actually embeds. -/
structure RenderedCard where
  videoId : String
  videoUrl : String
  title : String
  thumbnailUrl : String
  width : Nat
  height : Nat
deriving DecidableEq

/-- One iteration of `videos.map(...)`: optional chaining becomes
`Option.bind`; the guard `!videoId || !video.snippet?.title ||
!thumbnailUrl` (JS truthiness) returns `null`, modelled as `none`; width
and height default via JS `|| 320` and `|| 180`. -/
def renderItem (v : YouTubeVideoItem) : Option RenderedCard :=
  let videoId := v.id.bind VideoIdObj.videoId
  let title := v.snippet.bind Snippet.title
  let medium := (v.snippet.bind Snippet.thumbnails).bind Thumbnails.medium
  let thumbnailUrl := medium.bind MediumThumb.url
  if optStrTruthy videoId && optStrTruthy title && optStrTruthy thumbnailUrl then
    some
      { videoId := videoId.getD ""
        videoUrl := watchUrl (videoId.getD "")
        title := title.getD ""
        thumbnailUrl := thumbnailUrl.getD ""
        width := optNatOrDefault (medium.bind MediumThumb.width) 320
        height := optNatOrDefault (medium.bind MediumThumb.height) 180 }
  else none

/-- The value caught by the page catch block: a JS `Error` object (with its
`message` string) or any other thrown value. -/
inductive ThrownValue where
  | errObj (message : String)
  | nonError
deriving DecidableEq

/-- `error instanceof Error ? error.message : 'An unknown error occurred
while fetching videos.'`. -/
def caughtMessage : ThrownValue → String
  | .errObj m => m
  | .nonError => "An unknown error occurred while fetching videos."

/-- Outcome of the page try block: the parsed item list, or a thrown
value reaching the catch. -/
inductive FetchOutcome where
  | success (items : List YouTubeVideoItem)
  | failure (thrown : ThrownValue)
deriving DecidableEq

/-- The `(videos, fetchError)` pair after the try/catch: on failure the
catch records the message and sets `videos = []`. -/
def pageState : FetchOutcome → List YouTubeVideoItem × Option String
  | .success items => (items, none)
  | .failure t => ([], some (caughtMessage t))

/-- The error message thrown for a non-ok listing response:
`errorData.message || errorData.error || 'API request failed with status
N'` (JS `||`, empty strings skipped). -/
def responseFailMessage (jsonMessage jsonError : Option String) (status : Nat) : String :=
  optStrOrDefault jsonMessage
    (optStrOrDefault jsonError ("API request failed with status " ++ toString status))

/-- The three conditional body sections of the page. -/
inductive BodySection where
  | videoGrid (cards : List RenderedCard)
  | noVideosMessage
  | errorMessage (msg : String)
deriving DecidableEq

/-- The conditionally rendered sections, in JSX order:
`!fetchError && videos.length > 0` shows the grid,
`!fetchError && videos.length === 0` shows the no-videos message,
`fetchError && ...` shows the error line (all with JS truthiness). -/
def renderBody (fetchError : Option String) (videos : List YouTubeVideoItem) :
    List BodySection :=
  (if !optStrTruthy fetchError && decide (0 < videos.length) then
    [BodySection.videoGrid (videos.filterMap renderItem)]
  else []) ++
  (if !optStrTruthy fetchError && decide (videos.length = 0) then
    [BodySection.noVideosMessage]
  else []) ++
  (if optStrTruthy fetchError then
    [BodySection.errorMessage (fetchError.getD "")]
  else [])

/-- The page body for a given fetch outcome. -/
def pageBody (o : FetchOutcome) : List BodySection :=
  renderBody (pageState o).snd (pageState o).fst

/-! ## Spec-side definitions and concrete instances used by the theorems -/

/-- The status mapping of the download route's catch block as the (amended)
claim words it: only the status, read off the claim's text rather than the
code, to be compared with `classifyDownloadError`. -/
def claimStatusMapping (errMsg : String) : Nat :=
  let m := lowerStr errMsg
  if strContains m "unavailable" || strContains m "private" ||
      strContains m "video not found" then 404
  else if strContains m "extract function" || strContains m "cipher" ||
      strContains m "signature" then 503
  else if strContains m "no formats found matching quality" ||
      strContains m "no such format found" then 422
  else if strContains m "sign in to confirm" ||
      strContains m "confirm youâ€™re not a bot" then 403
  else 500

/-- The second 403 phrase of the catch block (mojibake as written in the
source). -/
def botPhrase : String := "confirm youâ€™re not a bot"

/-- Environment where `ytdl.getInfo` throws the bot-detection phrase. -/
def c1CexEnv : DownloadEnv :=
  { validateID := fun _ => true
    getInfo := fun _ => .error botPhrase }

/-- Environment where `ytdl.getInfo` throws an unavailable-video error. -/
def c1Env : DownloadEnv :=
  { validateID := fun s => decide (s.length = 11)
    getInfo := fun _ => .error "This video is unavailable" }

/-- Environment whose `validateID` rejects every id. -/
def c2CexEnv : DownloadEnv :=
  { validateID := fun _ => false
    getInfo := fun _ => .error "unused" }

/-- Environment where `ytdl.getInfo` succeeds with a concrete title. -/
def okInfoEnv : DownloadEnv :=
  { validateID := fun s => decide (s.length = 11)
    getInfo := fun _ => .ok { videoDetails := { title := some "My Video! (2024)" } } }

/-- A `youtube.search.list` stub that always succeeds with no items. -/
def constSearchList : SearchParams → Except String SearchResponse :=
  fun _ => .ok { items := some [] }

/-- An item with no video id but all other fields populated. -/
def itemNoId : YouTubeVideoItem :=
  { id := none
    snippet := some
      { title := some "t"
        thumbnails := some
          { medium := some { url := some "u", width := some 1, height := some 2 } } } }

/-- An item missing its thumbnail width and height. -/
def itemNoWidth : YouTubeVideoItem :=
  { id := some { videoId := some "abc" }
    snippet := some
      { title := some "Title"
        thumbnails := some
          { medium := some { url := some "http:u", width := none, height := none } } } }

/-- The card the page renders for `itemNoWidth`. -/
def cardNoWidth : RenderedCard :=
  { videoId := "abc"
    videoUrl := watchUrl "abc"
    title := "Title"
    thumbnailUrl := "http:u"
    width := 320
    height := 180 }

/-! ## Theorems -/

/-- The status the route computes equals the claim-side status mapping on
every message (the two definitions branch on the same substring tests). -/
theorem classify_fst_eq (videoId e : String) :
    (classifyDownloadError videoId e).fst = claimStatusMapping e := by
  simp only [classifyDownloadError, claimStatusMapping]
  split_ifs <;> rfl

set_option maxRecDepth 8192 in
/-- Claim C1 fails as stated: the thrown message "confirm youâ€™re not a
bot" contains none of the nine substrings the claim lists, so the claim
predicts status 500, but the handler returns 403 (the catch block has a
second 403 phrase the claim omits). -/
theorem c1_counterexample :
    strContains (lowerStr botPhrase) "unavailable" = false ∧
    strContains (lowerStr botPhrase) "private" = false ∧
    strContains (lowerStr botPhrase) "video not found" = false ∧
    strContains (lowerStr botPhrase) "extract function" = false ∧
    strContains (lowerStr botPhrase) "cipher" = false ∧
    strContains (lowerStr botPhrase) "signature" = false ∧
    strContains (lowerStr botPhrase) "no formats found matching quality" = false ∧
    strContains (lowerStr botPhrase) "no such format found" = false ∧
    strContains (lowerStr botPhrase) "sign in to confirm" = false ∧
    downloadGET c1CexEnv (some "dQw4w9WgXcQ")
      = DownloadResponse.json 403 (classifyDownloadError "dQw4w9WgXcQ" botPhrase).snd
          (some "dQw4w9WgXcQ") ∧
    (403 : Nat) ≠ 500 := by
  decide

/-- Claim C1 (amended): for every error thrown during download setup for a
present, non-empty, valid videoId, the handler returns the status given by
the claim's substring mapping extended with the second 403 phrase
"confirm youâ€™re not a bot", and the JSON body carries the computed error
message and the videoId. -/
theorem c1_error_mapping (env : DownloadEnv) (vid e : String)
    (hne : vid ≠ "") (hval : env.validateID vid = true)
    (herr : env.getInfo (watchUrl vid) = .error e) :
    downloadGET env (some vid)
      = DownloadResponse.json (claimStatusMapping e)
          (classifyDownloadError vid e).snd (some vid) := by
  have hvz : (vid == "") = false := by simpa using hne
  simp only [downloadGET, hvz, Bool.false_eq_true, if_false, hval, Bool.not_true, herr,
    classify_fst_eq]

/-- Claim C1 witness: a concrete unavailable-video error maps to 404 with
the fixed message and the videoId in the body. -/
theorem c1_error_mapping_witness :
    downloadGET c1Env (some "dQw4w9WgXcQ")
      = DownloadResponse.json 404 "Video is unavailable, private, or not found."
          (some "dQw4w9WgXcQ") := by
  have h := c1_error_mapping c1Env "dQw4w9WgXcQ" "This video is unavailable"
    (by decide) (by decide) rfl
  exact h.trans (by decide)

/-- Claim C2 fails as stated: with the query parameter present but equal to
the empty string (URL `?videoId=`), `validateID` rejects it, yet the
handler returns the missing-parameter error with videoId null instead of
the claimed "Invalid YouTube video ID" response (JS `!videoId` treats the
empty string like an absent parameter). -/
theorem c2_counterexample :
    c2CexEnv.validateID "" = false ∧
    downloadGET c2CexEnv (some "")
      = DownloadResponse.json 400 "videoId query parameter is required" none ∧
    downloadGET c2CexEnv (some "")
      ≠ DownloadResponse.json 400 "Invalid YouTube video ID" (some "") := by
  decide

/-- Claim C2 (amended): an absent or empty videoId parameter yields 400
with the missing-parameter error and videoId null; a present, non-empty
videoId rejected by `validateID` yields 400 with "Invalid YouTube video
ID"; only a present, non-empty, valid videoId proceeds to `getInfo` and
streaming. -/
theorem c2_videoId_validation (env : DownloadEnv) (vid : String) :
    downloadGET env none
      = DownloadResponse.json 400 "videoId query parameter is required" none ∧
    downloadGET env (some "")
      = DownloadResponse.json 400 "videoId query parameter is required" none ∧
    (vid ≠ "" → env.validateID vid = false →
      downloadGET env (some vid)
        = DownloadResponse.json 400 "Invalid YouTube video ID" (some vid)) ∧
    (vid ≠ "" → env.validateID vid = true →
      downloadGET env (some vid) =
        match env.getInfo (watchUrl vid) with
        | .ok info =>
          DownloadResponse.stream (downloadHeaders info.videoDetails.title) ffmpegCommandConfig
        | .error e =>
          DownloadResponse.json (classifyDownloadError vid e).fst
            (classifyDownloadError vid e).snd (some vid)) := by
  refine ⟨rfl, rfl, ?_, ?_⟩
  · intro hne hval
    have hvz : (vid == "") = false := by simpa using hne
    simp only [downloadGET, hvz, Bool.false_eq_true, if_false, hval, Bool.not_false, if_true]
  · intro hne hval
    have hvz : (vid == "") = false := by simpa using hne
    simp only [downloadGET, hvz, Bool.false_eq_true, if_false, hval, Bool.not_true]

/-- Claim C2 witness: a present, non-empty id rejected by `validateID`
gets the invalid-id response. -/
theorem c2_videoId_validation_witness :
    downloadGET c2CexEnv (some "notvalid")
      = DownloadResponse.json 400 "Invalid YouTube video ID" (some "notvalid") :=
  (c2_videoId_validation c2CexEnv "notvalid").2.2.1 (by decide) rfl

/-- Claim C3: with the API key unset the collect-videos handler returns 500
with the fixed message and performs no search call (the call log is empty),
and whenever a call was performed the key was present. -/
theorem c3_api_key_required :
    (∀ searchList, collectVideosGET none searchList
      = ([], CollectResponse.jsonMessage 500
          "YouTube API Key is not configured on the server.")) ∧
    (∀ apiKey searchList,
      (collectVideosGET apiKey searchList).fst ≠ [] → ∃ k, apiKey = some k) := by
  constructor
  · intro searchList; rfl
  · intro apiKey searchList h
    match apiKey with
    | some k => exact ⟨k, rfl⟩
    | none => exact (h rfl).elim

/-- Claim C3 witness: the missing-key response at a concrete search stub,
and a performed call implying a present key at a concrete key. -/
theorem c3_api_key_required_witness :
    collectVideosGET none constSearchList
      = ([], CollectResponse.jsonMessage 500
          "YouTube API Key is not configured on the server.") ∧
    ∃ k, (some "secret" : Option String) = some k :=
  ⟨c3_api_key_required.1 constSearchList,
   c3_api_key_required.2 (some "secret") constSearchList (by decide)⟩

/-- Claim C4: whenever `getInfo` succeeds for a valid videoId, the handler
streams with the fixed ffmpeg configuration: start time 00:00:00, duration
30 seconds, format mp4, and the three output options; the configuration is
the closed constant `ffmpegCommandConfig`, independent of the request. -/
theorem c4_fixed_ffmpeg_config (env : DownloadEnv) (vid : String) (info : VideoInfo)
    (hne : vid ≠ "") (hval : env.validateID vid = true)
    (hinfo : env.getInfo (watchUrl vid) = .ok info) :
    (∃ h, downloadGET env (some vid) = DownloadResponse.stream h ffmpegCommandConfig) ∧
    ffmpegCommandConfig.startTime = "00:00:00" ∧
    ffmpegCommandConfig.durationSeconds = 30 ∧
    ffmpegCommandConfig.format = "mp4" ∧
    "-movflags frag_keyframe+empty_moov" ∈ ffmpegCommandConfig.outputOptions ∧
    "-preset ultrafast" ∈ ffmpegCommandConfig.outputOptions ∧
    "-tune zerolatency" ∈ ffmpegCommandConfig.outputOptions := by
  have hvz : (vid == "") = false := by simpa using hne
  refine ⟨⟨downloadHeaders info.videoDetails.title, ?_⟩, rfl, rfl, rfl, ?_, ?_, ?_⟩
  · simp only [downloadGET, hvz, Bool.false_eq_true, if_false, hval, Bool.not_true, hinfo]
  all_goals decide

/-- Claim C4 witness: a concrete successful request streams with the fixed
configuration. -/
theorem c4_fixed_ffmpeg_config_witness :
    ∃ h, downloadGET okInfoEnv (some "dQw4w9WgXcQ")
      = DownloadResponse.stream h ffmpegCommandConfig :=
  (c4_fixed_ffmpeg_config okInfoEnv "dQw4w9WgXcQ"
    { videoDetails := { title := some "My Video! (2024)" } }
    (by decide) (by decide) rfl).1

/-- Claim C5: with the credential present the collect-videos handler calls
`search.list` exactly once, with part snippet, type video, the fixed query
and maxResults 10, and returns the items of that call (or the empty list
when items is absent). -/
theorem c5_single_search_call (k : String)
    (searchList : SearchParams → Except String SearchResponse) (hk : k ≠ "") :
    (collectVideosGET (some k) searchList).fst = [collectSearchParams] ∧
    collectSearchParams.part = ["snippet"] ∧
    collectSearchParams.q = "talk about money" ∧
    collectSearchParams.type = ["video"] ∧
    collectSearchParams.maxResults = 10 ∧
    (∀ resp, searchList collectSearchParams = .ok resp →
      (collectVideosGET (some k) searchList).snd
        = CollectResponse.jsonVideos 200 (resp.items.getD [])) := by
  have hk2 : optStrTruthy (some k) = true := by
    simp [optStrTruthy, hk]
  refine ⟨?_, rfl, rfl, rfl, rfl, ?_⟩
  · simp only [collectVideosGET, hk2, Bool.not_true, Bool.false_eq_true, if_false]
    cases h : searchList collectSearchParams <;> rfl
  · intro resp hresp
    simp only [collectVideosGET, hk2, Bool.not_true, Bool.false_eq_true, if_false, hresp]

/-- Claim C5 witness: a concrete key and search stub give exactly one call
with the fixed parameters and the stubbed (empty) item list. -/
theorem c5_single_search_call_witness :
    (collectVideosGET (some "secret") constSearchList).fst = [collectSearchParams] ∧
    (collectVideosGET (some "secret") constSearchList).snd
      = CollectResponse.jsonVideos 200 [] := by
  have h := c5_single_search_call "secret" constSearchList (by decide)
  exact ⟨h.1, (h.2.2.2.2.2 { items := some [] } rfl).trans (by decide)⟩

/-- Claim C6 fails as stated: a fetch failure whose `Error` carries an
empty message is a fetch failure, yet the page renders the no-videos
message and no error line (JSX `fetchError && ...` is falsy on the empty
string). -/
theorem c6_counterexample :
    pageBody (FetchOutcome.failure (ThrownValue.errObj ""))
      = [BodySection.noVideosMessage] := by
  decide

/-- Claim C6 (amended): a successful fetch with a non-empty list renders
exactly the video grid; a successful fetch with an empty list renders
exactly the no-videos message; a failed fetch renders exactly the error
line when the recorded message is non-empty, and the no-videos message
when that message is empty (the grid never appears on failure). -/
theorem c6_page_rendering (items : List YouTubeVideoItem) (t : ThrownValue) :
    (items ≠ [] → pageBody (FetchOutcome.success items)
      = [BodySection.videoGrid (items.filterMap renderItem)]) ∧
    (items = [] → pageBody (FetchOutcome.success items)
      = [BodySection.noVideosMessage]) ∧
    (caughtMessage t ≠ "" → pageBody (FetchOutcome.failure t)
      = [BodySection.errorMessage (caughtMessage t)]) ∧
    (caughtMessage t = "" → pageBody (FetchOutcome.failure t)
      = [BodySection.noVideosMessage]) := by
  refine ⟨?_, ?_, ?_, ?_⟩
  · intro hne
    cases items with
    | nil => exact (hne rfl).elim
    | cons a l =>
      simp [pageBody, pageState, renderBody, optStrTruthy]
  · intro he; subst he; rfl
  · intro hne
    have h2 : (caughtMessage t == "") = false := by simpa using hne
    simp [pageBody, pageState, renderBody, optStrTruthy, h2]
  · intro he
    simp [pageBody, pageState, renderBody, optStrTruthy, he]

/-- Claim C6 witness: a failure with message "boom" renders exactly the
error line. -/
theorem c6_page_rendering_witness :
    pageBody (FetchOutcome.failure (ThrownValue.errObj "boom"))
      = [BodySection.errorMessage "boom"] :=
  (c6_page_rendering [] (ThrownValue.errObj "boom")).2.2.1 (by decide)

/-- Claim C7: the cancel event of the response stream tears down all three
wired components in one step — the ytdl source stream and the ffmpeg output
pass-through are destroyed and the ffmpeg process is killed with SIGKILL —
from any wiring state, without touching the enqueued data. -/
theorem c7_cancel_teardown (s : WireState) :
    (wireStep s StreamEvent.cancelEvent).videoStreamDestroyed = true ∧
    (wireStep s StreamEvent.cancelEvent).passThroughDestroyed = true ∧
    (wireStep s StreamEvent.cancelEvent).ffmpegKillSignal = some "SIGKILL" ∧
    (wireStep s StreamEvent.cancelEvent).enqueued = s.enqueued :=
  ⟨rfl, rfl, rfl, rfl⟩

/-- Claim C8: every successful download response carries Content-Type
video/mp4 and a Content-Disposition attachment whose filename is the
sanitized title (bad characters to underscores, whitespace runs to one
underscore, at most 100 characters) followed by the fixed suffix; the
title defaults to "youtube_video" when absent. -/
theorem c8_download_headers (env : DownloadEnv) (vid : String) (info : VideoInfo)
    (hne : vid ≠ "") (hval : env.validateID vid = true)
    (hinfo : env.getInfo (watchUrl vid) = .ok info) :
    downloadGET env (some vid)
      = DownloadResponse.stream (downloadHeaders info.videoDetails.title) ffmpegCommandConfig ∧
    downloadHeaders info.videoDetails.title
      = [("Content-Type", "video/mp4"),
         ("Content-Disposition",
           "attachment; filename=\"" ++
             sanitizedFilenameBase (videoTitleOf info.videoDetails.title) ++
             "_trimmed_30s.mp4\"")] ∧
    videoTitleOf none = "youtube_video" ∧
    (sanitizedFilenameBase (videoTitleOf info.videoDetails.title)).length ≤ 100 := by
  have hvz : (vid == "") = false := by simpa using hne
  refine ⟨?_, ?_, rfl, ?_⟩
  · simp only [downloadGET, hvz, Bool.false_eq_true, if_false, hval, Bool.not_true, hinfo]
  · simp [downloadHeaders, downloadFilename, String.append_assoc]
  · exact List.length_take_le 100
      (collapseWsAux false ((videoTitleOf info.videoDetails.title).toList.map replaceBadChar))

/-- Claim C8 witness: the title "My Video! (2024)" yields the sanitized
attachment filename. -/
theorem c8_download_headers_witness :
    downloadGET okInfoEnv (some "dQw4w9WgXcQ")
      = DownloadResponse.stream
          [("Content-Type", "video/mp4"),
           ("Content-Disposition",
             "attachment; filename=\"My_Video___2024__trimmed_30s.mp4\"")]
          ffmpegCommandConfig := by
  have h := (c8_download_headers okInfoEnv "dQw4w9WgXcQ"
    { videoDetails := { title := some "My Video! (2024)" } }
    (by decide) (by decide) rfl).1
  exact h.trans (by decide)

/-- Claim C9: an item missing its video id, its snippet title or its
medium thumbnail URL renders nothing, and a rendered card defaults a
missing width to 320 and a missing height to 180 (rendering is a total
function on items). -/
theorem c9_item_guard (v : YouTubeVideoItem) :
    (v.id.bind VideoIdObj.videoId = none → renderItem v = none) ∧
    (v.snippet.bind Snippet.title = none → renderItem v = none) ∧
    (((v.snippet.bind Snippet.thumbnails).bind Thumbnails.medium).bind MediumThumb.url = none →
      renderItem v = none) ∧
    (∀ c, renderItem v = some c →
      (((v.snippet.bind Snippet.thumbnails).bind Thumbnails.medium).bind MediumThumb.width = none →
        c.width = 320) ∧
      (((v.snippet.bind Snippet.thumbnails).bind Thumbnails.medium).bind MediumThumb.height = none →
        c.height = 180)) := by
  refine ⟨?_, ?_, ?_, ?_⟩
  · intro h; simp [renderItem, h, optStrTruthy]
  · intro h; simp [renderItem, h, optStrTruthy]
  · intro h; simp [renderItem, h, optStrTruthy]
  · intro c hc
    simp only [renderItem] at hc
    split at hc
    · injection hc with hc
      subst hc
      constructor
      · intro hw; simp [hw, optNatOrDefault]
      · intro hh; simp [hh, optNatOrDefault]
    · exact absurd hc (by simp)

/-- Claim C9 witness: an id-less item renders nothing, and an item without
thumbnail dimensions renders a card with the 320 by 180 defaults. -/
theorem c9_item_guard_witness :
    renderItem itemNoId = none ∧ cardNoWidth.width = 320 ∧ cardNoWidth.height = 180 :=
  ⟨(c9_item_guard itemNoId).1 rfl,
   ((c9_item_guard itemNoWidth).2.2.2 cardNoWidth (by decide)).1 rfl,
   ((c9_item_guard itemNoWidth).2.2.2 cardNoWidth (by decide)).2 rfl⟩

/-- Claim C10: for every fetch-error value and video list the page body
holds exactly one of the three sections (grid, no-videos message, error
line), and the catch block always empties the video list while recording
the caught message. -/
theorem c10_exactly_one_section (fetchError : Option String)
    (videos : List YouTubeVideoItem) :
    (renderBody fetchError videos).length = 1 ∧
    (∀ t, pageState (FetchOutcome.failure t) = ([], some (caughtMessage t))) := by
  constructor
  · unfold renderBody
    cases h : optStrTruthy fetchError with
    | true => simp [h]
    | false =>
      cases videos with
      | nil => simp [h]
      | cons a l => simp [h]
  · intro t; rfl
